import Mathlib

/-
Verification development for the netatmoai snapshot-download script
(download_snapshot.py). The definitions below are a shallow embedding of
the credential/token lifecycle (ClientAuth), the home lookup
(HomesData.get_homes_id) and the event/time-window filtering
(ModulesEvents.get_snapshots_url). Python exceptions are modelled by an
explicit error type; timestamps are integers; network responses are
passed in as explicit inputs; the number of network calls performed by
an operation is returned alongside its result.
-/

namespace Netatmo

/-- Python exceptions that the script can raise, as an explicit error type.
`httpError` models urllib raising on a non-success HTTP response;
`keyError k` models a dict lookup `d[k]` failing; `indexError` models
`[..][0]` on an empty list; `assertionError` models the explicit
`raise AssertionError` in get_snapshots_url; `unboundLocalError v` models
Python reading local variable `v` before assignment; `exnMsg m` models a
plain `raise Exception(m)`. -/
inductive Err where
  | httpError
  | keyError (key : String)
  | indexError
  | assertionError
  | unboundLocalError (vname : String)
  | exnMsg (msg : String)
deriving Repr, DecidableEq

/-- A Python dict with string keys and string values, as an association list. -/
abbrev CredMap := List (String × String)

/-- Model of Python dict lookup `d.get(k)` on a CredMap. -/
def lookupKey (k : String) : CredMap → Option String
  | [] => none
  | kv :: rest => if kv.1 = k then some kv.2 else lookupKey k rest

/-- Model of Python dict assignment `d[k] = v` on a CredMap: replaces the
value under an existing key, otherwise appends the binding. -/
def updateKey (k v : String) : CredMap → CredMap
  | [] => [(k, v)]
  | kv :: rest => if kv.1 = k then (k, v) :: rest else kv :: updateKey k v rest

/-- Line 30 of download_snapshot.py: the credentials file is loaded with
every key upper-cased. -/
def loadCred (fileCred : CredMap) : CredMap :=
  fileCred.map (fun kv => (kv.1.toUpper, kv.2))

/-- Lines 32-33: getenv(key, default.get(key, None)) — an environment
variable overrides the credential-file value when present. -/
def getParameter (env : String → Option String) (key : String) (default : CredMap) :
    Option String :=
  match env key with
  | some v => some v
  | none => lookupKey key default

/-- The JSON payload of the authorization endpoint, with every field
optional so that malformed payloads (missing access_token, expire_in or
refresh_token) are representable. -/
structure TokenResponseRaw where
  access_tokenF : Option String
  expire_inF : Option Int
  refresh_tokenF : Option String
deriving Repr, DecidableEq

/-- The mutable state of the process: the ClientAuth instance fields
(lines 86-90), the module-level cred dict (line 30), the persisted
credentials file, and a counter of file writes. -/
structure SysState where
  _client_id : Option String
  _client_secret : Option String
  _access_token : Option String
  refresh_token : Option String
  expiration : Int
  cred : CredMap
  credFile : CredMap
  fileWrites : Nat
deriving Repr, DecidableEq

/-- Module start-up (lines 28-38) followed by ClientAuth.__init__
(lines 82-90): load the credential file with upper-cased keys, resolve
CLIENT_ID / CLIENT_SECRET / REFRESH_TOKEN with env-var override, no
access token yet, expiration 0 to force a first refresh. -/
def initState (env : String → Option String) (fileCred : CredMap) : SysState :=
  let cred := loadCred fileCred
  { _client_id := getParameter env "CLIENT_ID" cred
    _client_secret := getParameter env "CLIENT_SECRET" cred
    _access_token := none
    refresh_token := getParameter env "REFRESH_TOKEN" cred
    expiration := 0
    cred := cred
    credFile := fileCred
    fileWrites := 0 }

/-- ClientAuth.renew_token (lines 99-114). The single post_request to the
authorization endpoint is modelled by the `resp` input (error = HTTP
failure); its result is the error outcome, the state after the call
(side effects performed before an exception are kept), and the number of
network calls made, which is always 1. On a rotated refresh token the
module-level cred dict is updated and the file rewritten with it
(lines 108-112); the access token and expiration are assigned afterwards
(lines 113-114), so a payload missing access_token or expire_in raises
after the rotation side effects. -/
def renew_token (now : Int) (resp : Except Unit TokenResponseRaw) (s : SysState) :
    Except Err Unit × SysState × Nat :=
  match resp with
  | .error _ => (.error .httpError, s, 1)
  | .ok r =>
    match r.refresh_tokenF with
    | none => (.error (.keyError "refresh_token"), s, 1)
    | some rt =>
      let s1 :=
        if s.refresh_token ≠ some rt then
          let newCred := updateKey "REFRESH_TOKEN" rt s.cred
          { s with refresh_token := some rt, cred := newCred,
                   credFile := newCred, fileWrites := s.fileWrites + 1 }
        else s
      match r.access_tokenF with
      | none => (.error (.keyError "access_token"), s1, 1)
      | some tok =>
        let s2 := { s1 with _access_token := some tok }
        match r.expire_inF with
        | none => (.error (.keyError "expire_in"), s2, 1)
        | some ei => (.ok (), { s2 with expiration := ei + now }, 1)

/-- The ClientAuth.access_token property (lines 92-97): renew exactly when
`self.expiration < time.time()`, then return the stored access token. -/
def access_token (now : Int) (resp : Except Unit TokenResponseRaw) (s : SysState) :
    Except Err (Option String) × SysState × Nat :=
  if s.expiration < now then
    match renew_token now resp s with
    | (.error e, s1, n) => (.error e, s1, n)
    | (.ok _, s1, n) => (.ok s1._access_token, s1, n)
  else (.ok s._access_token, s, 0)

/-- One entry of the homesdata payload. -/
structure Home where
  id : String
  name : String
deriving Repr, DecidableEq

/-- Python truthiness of the optional `name` argument (`if not name`). -/
def isFalsyName : Option String → Bool
  | none => true
  | some s => s = ""

/-- HomesData.__init__ (lines 153-161): raises when the homes payload is
empty. -/
def homes_data_init (homesPayload : List Home) : Except Err (List Home) :=
  if homesPayload.isEmpty then .error (.exnMsg "No home found") else .ok homesPayload

/-- HomesData.get_homes_id (lines 163-169): with no (or falsy) name,
returns the list of all home ids; with a name, filters by exact name
match and takes element [0], so an empty match list raises IndexError. -/
def get_homes_id (raw_data : List Home) (name : Option String) :
    Except Err (List String ⊕ String) :=
  if isFalsyName name then .ok (.inl (raw_data.map (fun hm => hm.id)))
  else
    match (raw_data.filter (fun hm => name = some hm.name)).map (fun hm => hm.id) with
    | [] => .error .indexError
    | x :: _ => .ok (.inr x)

/-- The main flow of the script as far as home lookup is concerned
(lines 238-241): HomesData init, then get_homes_id, and only on success
the HomeStatus and ModulesEvents constructors each issue one network
call to the home-status and events endpoints. The Nat component counts
those two subsequent endpoint calls. -/
def run_main (homes : List Home) (name : Option String) :
    Except Err (List String ⊕ String) × Nat :=
  match homes_data_init homes with
  | .error e => (.error e, 0)
  | .ok raw =>
    match get_homes_id raw name with
    | .error e => (.error e, 0)
    | .ok hid => (.ok hid, 2)

/-- The snapshot object of a subevent; the url key is optional
(subevent["snapshot"].get("url", None)). -/
structure Snapshot where
  url : Option String
deriving Repr, DecidableEq

/-- A subevent of an events-endpoint payload. The snapshot key itself is
accessed with subevent["snapshot"], so its absence raises KeyError. -/
structure Subevent where
  time : Int
  snapshot : Option Snapshot
deriving Repr, DecidableEq

/-- An event of an events-endpoint payload; event.get("subevents", [])
makes a missing subevents key equivalent to the empty list. -/
structure Event where
  time : Int
  subevents : List Subevent
deriving Repr, DecidableEq

/-- An element of the list returned by get_snapshots_url. -/
structure SnapRef where
  timestamp : Int
  url : String
deriving Repr, DecidableEq

/-- sys.maxsize on a 64-bit platform (line 210). -/
def maxsize : Int := 2 ^ 63 - 1

/-- The window test of line 226:
event["time"] > since_timestamp or to_timestamp > event["time"] > from_timestamp. -/
def event_matches (sinceTs fromTs toTs : Int) (e : Event) : Bool :=
  decide (e.time > sinceTs) || (decide (toTs > e.time) && decide (e.time > fromTs))

/-- The snapshot reference produced by one subevent, when its snapshot
object is present and carries a url. -/
def snapOfSub (u : Subevent) : Option SnapRef :=
  match u.snapshot with
  | none => none
  | some snap =>
    match snap.url with
    | some s => some { timestamp := u.time, url := s }
    | none => none

/-- The references contributed by a subevent list in which every subevent
carries a snapshot object. -/
def sub_refs (subs : List Subevent) : List SnapRef :=
  subs.filterMap snapOfSub

/-- The inner loop of lines 227-231: for each subevent, read
subevent["snapshot"] (KeyError when absent), then append
{timestamp: subevent time, url} when the url is populated. -/
def collect_subevents : List Subevent → Except Err (List SnapRef)
  | [] => .ok []
  | u :: rest =>
    match u.snapshot with
    | none => .error (.keyError "snapshot")
    | some snap =>
      match collect_subevents rest with
      | .error e => .error e
      | .ok r =>
        match snap.url with
        | some s => .ok ({ timestamp := u.time, url := s } :: r)
        | none => .ok r

/-- The event loop of lines 225-231: events passing the window test
contribute their subevent references in order. -/
def filter_events (sinceTs fromTs toTs : Int) : List Event → Except Err (List SnapRef)
  | [] => .ok []
  | e :: rest =>
    if event_matches sinceTs fromTs toTs e then
      match collect_subevents e.subevents with
      | .error err => .error err
      | .ok s =>
        match filter_events sinceTs fromTs toTs rest with
        | .error err => .error err
        | .ok r => .ok (s ++ r)
    else filter_events sinceTs fromTs toTs rest

/-- ModulesEvents.get_snapshots_url (lines 205-233). The `since`, `_from`
and `to` arguments are modelled already parsed (pytimeparse seconds and
fromisoformat timestamps respectively), with None as Option.none. When
`since` is given, since_timestamp becomes now - since and `_from`/`to`
are overwritten with None (lines 212-216); otherwise since_timestamp
stays sys.maxsize. Line 222 then unconditionally evaluates
`to_timestamp < from_timestamp`: a missing `to` (resp. `_from`) at that
point raises UnboundLocalError, and `to < from` raises AssertionError,
both before the events fetch. Only afterwards is the single events
network call made (line 225 via get_events_from_type); the Nat result
counts that call. -/
def get_snapshots_url (now : Int) (events : List Event)
    (since : Option Int) (_from _to : Option Int) :
    Except Err (List SnapRef) × Nat :=
  let sinceTs : Int :=
    match since with
    | some n => now - n
    | none => maxsize
  let fromOpt : Option Int := if since.isSome then none else _from
  let toOpt : Option Int := if since.isSome then none else _to
  match toOpt with
  | none => (.error (.unboundLocalError "to_timestamp"), 0)
  | some toTs =>
    match fromOpt with
    | none => (.error (.unboundLocalError "from_timestamp"), 0)
    | some fromTs =>
      if toTs < fromTs then (.error .assertionError, 0)
      else
        match filter_events sinceTs fromTs toTs events with
        | .error e => (.error e, 1)
        | .ok refs => (.ok refs, 1)

/-- Whether a subevent list contains a subevent without a snapshot object
(the condition under which the inner loop raises KeyError). -/
def sub_bad (subs : List Subevent) : Bool :=
  subs.any (fun u => u.snapshot.isNone)

/-- Whether an event both passes the window test and has a subevent
without a snapshot object. -/
def event_bad (sinceTs fromTs toTs : Int) (e : Event) : Bool :=
  event_matches sinceTs fromTs toTs e && sub_bad e.subevents

/-- The references one event contributes to the output list. -/
def event_refs (sinceTs fromTs toTs : Int) (e : Event) : List SnapRef :=
  if event_matches sinceTs fromTs toTs e then sub_refs e.subevents else []

/-- Fixture: a state holding a valid token "T" expiring at 100 with
refresh token "R" loaded from the file. -/
def stCached : SysState :=
  { _client_id := some "cid", _client_secret := some "sec", _access_token := some "T",
    refresh_token := some "R", expiration := 100, cred := [("REFRESH_TOKEN", "R")],
    credFile := [("REFRESH_TOKEN", "R")], fileWrites := 0 }

/-- Fixture: a well-formed renewal response rotating the refresh token to "B". -/
def respRotB : TokenResponseRaw :=
  { access_tokenF := some "newTok", expire_inF := some 3600, refresh_tokenF := some "B" }

/-- Fixture: five events, three of them with a populated snapshot url,
of which exactly two fall in the window (0, 100). -/
def fixtureEvents : List Event :=
  [ { time := 10, subevents := [{ time := 11, snapshot := some { url := some "a" } }] },
    { time := 20, subevents := [{ time := 21, snapshot := some { url := some "b" } }] },
    { time := 200, subevents := [{ time := 201, snapshot := some { url := some "c" } }] },
    { time := 30, subevents := [{ time := 31, snapshot := some { url := none } }] },
    { time := 40, subevents := [] } ]

/-- Fixture: the same five events in reversed order. -/
def fixtureEventsRev : List Event := fixtureEvents.reverse

/-- Fixture: an environment where only REFRESH_TOKEN is overridden, with
value "E". -/
def envRT : String → Option String :=
  fun k => if k = "REFRESH_TOKEN" then some "E" else none

/-- Fixture: a credentials file holding a client id and refresh token "A". -/
def fileCredA : CredMap :=
  [("CLIENT_ID", "cid"), ("CLIENT_SECRET", "sec"), ("REFRESH_TOKEN", "A")]

theorem lookupKey_updateKey_self (k v : String) (m : CredMap) :
    lookupKey k (updateKey k v m) = some v := by
  induction m with
  | nil => simp [updateKey, lookupKey]
  | cons kv rest ih =>
    by_cases h : kv.1 = k <;> simp [updateKey, lookupKey, h, ih]

theorem lookupKey_updateKey_ne (k k' v : String) (m : CredMap) (h : k' ≠ k) :
    lookupKey k' (updateKey k v m) = lookupKey k' m := by
  induction m with
  | nil =>
    simp only [updateKey, lookupKey]
    rw [if_neg (fun hh => h hh.symm)]
  | cons kv rest ih =>
    by_cases hk : kv.1 = k
    · subst hk
      simp only [updateKey, if_pos rfl, lookupKey]
      rw [if_neg (fun hh => h hh.symm), if_neg (fun hh => h hh.symm)]
    · simp only [updateKey, if_neg hk, lookupKey, ih]

theorem collect_subevents_eq (subs : List Subevent) :
    collect_subevents subs =
      if sub_bad subs then .error (.keyError "snapshot") else .ok (sub_refs subs) := by
  induction subs with
  | nil => simp [collect_subevents, sub_bad, sub_refs]
  | cons u rest ih =>
    cases hu : u.snapshot with
    | none =>
      have hb : sub_bad (u :: rest) = true := by simp [sub_bad, hu]
      simp [collect_subevents, hu, hb]
    | some snap =>
      have hb : sub_bad (u :: rest) = sub_bad rest := by simp [sub_bad, hu]
      rw [hb]
      simp only [collect_subevents, hu, ih]
      by_cases hbr : sub_bad rest
      · simp [hbr]
      · cases hurl : snap.url <;>
          simp [hbr, hurl, sub_refs, List.filterMap_cons, snapOfSub, hu]

theorem filter_events_eq (sinceTs fromTs toTs : Int) (l : List Event) :
    filter_events sinceTs fromTs toTs l =
      if l.any (event_bad sinceTs fromTs toTs) then .error (.keyError "snapshot")
      else .ok (l.flatMap (event_refs sinceTs fromTs toTs)) := by
  induction l with
  | nil => simp [filter_events]
  | cons e rest ih =>
    by_cases hm : event_matches sinceTs fromTs toTs e = true
    · have hb : (e :: rest).any (event_bad sinceTs fromTs toTs)
          = (sub_bad e.subevents || rest.any (event_bad sinceTs fromTs toTs)) := by
        simp [List.any_cons, event_bad, hm]
      rw [hb]
      simp only [filter_events, if_pos hm, collect_subevents_eq, ih]
      by_cases hbe : sub_bad e.subevents
      · simp [hbe]
      · by_cases hbr : rest.any (event_bad sinceTs fromTs toTs)
        · simp [hbe, hbr]
        · simp [hbe, hbr, event_refs, hm, List.flatMap_cons]
    · have hb : (e :: rest).any (event_bad sinceTs fromTs toTs)
          = rest.any (event_bad sinceTs fromTs toTs) := by
        simp [List.any_cons, event_bad, hm]
      rw [hb]
      simp only [filter_events, if_neg hm, ih]
      simp [List.flatMap_cons, event_refs, hm]

theorem any_eq_of_perm {α : Type} (p : α → Bool) {l1 l2 : List α}
    (h : List.Perm l1 l2) : l1.any p = l2.any p := by
  cases h1 : l1.any p <;> cases h2 : l2.any p
  · rfl
  · obtain ⟨x, hx, hp⟩ := List.any_eq_true.mp h2
    rw [List.any_eq_false] at h1
    exact absurd hp (by simp [h1 x (h.mem_iff.mpr hx)])
  · obtain ⟨x, hx, hp⟩ := List.any_eq_true.mp h1
    rw [List.any_eq_false] at h2
    exact absurd hp (by simp [h2 x (h.mem_iff.mp hx)])
  · rfl

theorem snapOfSub_eq_some (u : Subevent) (r : SnapRef) :
    snapOfSub u = some r ↔ u.time = r.timestamp ∧
      ∃ snap, u.snapshot = some snap ∧ snap.url = some r.url := by
  obtain ⟨rts, rurl⟩ := r
  cases hsnap : u.snapshot with
  | none => simp [snapOfSub, hsnap]
  | some snap =>
    cases hurl : snap.url with
    | none => simp [snapOfSub, hsnap, hurl]
    | some s =>
      simp only [snapOfSub, hsnap, hurl, Option.some.injEq, SnapRef.mk.injEq]
      constructor
      · rintro ⟨h1, h2⟩
        exact ⟨h1, snap, rfl, by rw [hurl, h2]⟩
      · rintro ⟨h1, snap2, hs2, hu2⟩
        cases hs2
        rw [hurl] at hu2
        exact ⟨h1, (Option.some.injEq _ _).mp hu2⟩

theorem mem_sub_refs (subs : List Subevent) (r : SnapRef) :
    r ∈ sub_refs subs ↔ ∃ u ∈ subs, u.time = r.timestamp ∧
      ∃ snap, u.snapshot = some snap ∧ snap.url = some r.url := by
  simp [sub_refs, List.mem_filterMap, snapOfSub_eq_some]

theorem mem_event_refs (sinceTs fromTs toTs : Int) (e : Event) (r : SnapRef) :
    r ∈ event_refs sinceTs fromTs toTs e ↔
      event_matches sinceTs fromTs toTs e = true ∧ r ∈ sub_refs e.subevents := by
  by_cases hm : event_matches sinceTs fromTs toTs e = true <;> simp [event_refs, hm]

theorem event_matches_iff (sinceTs fromTs toTs : Int) (e : Event) :
    event_matches sinceTs fromTs toTs e = true ↔
      (sinceTs < e.time ∨ (fromTs < e.time ∧ e.time < toTs)) := by
  simp only [event_matches, Bool.or_eq_true, Bool.and_eq_true, decide_eq_true_eq,
    gt_iff_lt]
  tauto

theorem any_event_bad_iff (sinceTs fromTs toTs : Int) (l : List Event) :
    l.any (event_bad sinceTs fromTs toTs) = true ↔
      ∃ e ∈ l, event_matches sinceTs fromTs toTs e = true ∧
        ∃ u ∈ e.subevents, u.snapshot = none := by
  simp [List.any_eq_true, event_bad, sub_bad, Bool.and_eq_true,
    Option.isNone_iff_eq_none]

theorem renew_token_one_call (now : Int) (resp : Except Unit TokenResponseRaw)
    (s : SysState) : (renew_token now resp s).2.2 = 1 := by
  rcases resp with _ | r
  · rfl
  · rcases hr : r.refresh_tokenF with _ | rt <;>
      rcases ha : r.access_tokenF with _ | tok <;>
      rcases he : r.expire_inF with _ | ei <;>
      simp [renew_token, hr, ha, he]

theorem renew_token_ok (now : Int) (resp : Except Unit TokenResponseRaw) (s : SysState)
    (h : (renew_token now resp s).1 = .ok ()) :
    ∃ r rt tok ei, resp = .ok r ∧ r.refresh_tokenF = some rt ∧
      r.access_tokenF = some tok ∧ r.expire_inF = some ei ∧
      (renew_token now resp s).2.1._access_token = some tok ∧
      (renew_token now resp s).2.1.expiration = ei + now := by
  rcases resp with _ | r
  · simp [renew_token] at h
  · rcases hr : r.refresh_tokenF with _ | rt
    · simp [renew_token, hr] at h
    · rcases ha : r.access_tokenF with _ | tok
      · simp [renew_token, hr, ha] at h
      · rcases he : r.expire_inF with _ | ei
        · simp [renew_token, hr, ha, he] at h
        · exact ⟨r, rt, tok, ei, rfl, hr, ha, he,
            by simp [renew_token, hr, ha, he],
            by simp [renew_token, hr, ha, he]⟩

/-- Claim C4: a call to get_snapshots_url in the explicit-range form with
to < from fails with the configuration error (the AssertionError of line
223) and performs zero network calls: the events endpoint is never
contacted before the failure. -/
theorem get_snapshots_url_to_lt_from (now : Int) (events : List Event)
    (fromTs toTs : Int) (h : toTs < fromTs) :
    get_snapshots_url now events none (some fromTs) (some toTs)
      = (.error .assertionError, 0) := by
  simp [get_snapshots_url, h]

/-- Witness for claim C4 at from = 5, to = 3. -/
theorem get_snapshots_url_to_lt_from_witness :
    get_snapshots_url 0 fixtureEvents none (some 5) (some 3)
      = (.error .assertionError, 0) :=
  get_snapshots_url_to_lt_from 0 fixtureEvents 5 3 (by decide)

/-- Claim C5: demonstration of the code defect. Every call that supplies
the relative form since = N raises UnboundLocalError on to_timestamp at
line 222 (with or without an additional explicit range) and performs no
network call, instead of filtering with the window [now - N, +infinity):
lines 215-216 erase the explicit range to give the relative form
precedence, after which line 222 reads the never-assigned local
to_timestamp. -/
theorem get_snapshots_url_since_crashes (now n : Int) (events : List Event)
    (fromArg toArg : Option Int) :
    get_snapshots_url now events (some n) fromArg toArg
      = (.error (.unboundLocalError "to_timestamp"), 0) := rfl

/-- Claim C1 counterexample: with window [0, 10], an event at time 5
carrying a subevent at time 100 with a populated snapshot url yields the
SnapshotReference timestamp 100, which lies outside [0, 10]; an event at
time 50 whose subevent timestamp 5 lies inside the window contributes
nothing; and an event exactly at the bound 10 contributes nothing. The
window constrains the event timestamp only, with strict bounds, and the
reported timestamp is the subevent timestamp. -/
theorem get_snapshots_url_ts_outside_window :
    (get_snapshots_url 0 [⟨5, [⟨100, some ⟨some "u"⟩⟩]⟩]
        none (some 0) (some 10)).1
      = .ok [{ timestamp := 100, url := "u" }] ∧
    ¬ ((100 : Int) ≤ 10) ∧
    (get_snapshots_url 0 [⟨50, [⟨5, some ⟨some "v"⟩⟩]⟩]
        none (some 0) (some 10)).1
      = .ok [] ∧
    (get_snapshots_url 0 [⟨10, [⟨10, some ⟨some "w"⟩⟩]⟩]
        none (some 0) (some 10)).1
      = .ok [] := by
  refine ⟨rfl, by decide, rfl, rfl⟩

/-- Claim C1 (amended): when an explicit-range call succeeds, a
SnapshotReference r is in the output exactly when some event e in the
fetched collection satisfies the window test on the event timestamp
(from < e.time < to with strict bounds, or e.time > sys.maxsize) and has
a subevent with timestamp r.timestamp whose snapshot object carries the
url r.url. The window does not constrain the reported subevent
timestamp. -/
theorem get_snapshots_url_mem (now fromTs toTs : Int) (events : List Event)
    (refs : List SnapRef) (r : SnapRef)
    (h : (get_snapshots_url now events none (some fromTs) (some toTs)).1 = .ok refs) :
    r ∈ refs ↔ ∃ e ∈ events,
      (maxsize < e.time ∨ (fromTs < e.time ∧ e.time < toTs)) ∧
      ∃ u ∈ e.subevents, u.time = r.timestamp ∧
        ∃ snap, u.snapshot = some snap ∧ snap.url = some r.url := by
  have hfe := filter_events_eq maxsize fromTs toTs events
  by_cases hlt : toTs < fromTs
  · exfalso
    simp [get_snapshots_url, hlt] at h
  · by_cases hbad : events.any (event_bad maxsize fromTs toTs)
    · exfalso
      simp [get_snapshots_url, hlt, hfe, hbad] at h
    · have hrefs : refs = events.flatMap (event_refs maxsize fromTs toTs) := by
        simp [get_snapshots_url, hlt, hfe, hbad] at h
        exact h.symm
      subst hrefs
      simp only [List.mem_flatMap, mem_event_refs, event_matches_iff, mem_sub_refs]

/-- Witness for the amended claim C1 at a concrete successful call. -/
theorem get_snapshots_url_mem_witness :
    ({ timestamp := 100, url := "u" } : SnapRef)
      ∈ [({ timestamp := 100, url := "u" } : SnapRef)] :=
  (get_snapshots_url_mem 0 0 10 [⟨5, [⟨100, some ⟨some "u"⟩⟩]⟩]
      [{ timestamp := 100, url := "u" }] { timestamp := 100, url := "u" } rfl).mpr
    (by decide)

/-- Claim C8: the filtering step is a pure function of (events, window):
it is a Lean function, so equal inputs give equal outputs, and its output
is invariant under permutation of the source event collection — permuted
event lists fail in exactly the same cases, and on success their output
lists are permutations of each other. -/
theorem filter_events_perm (sinceTs fromTs toTs : Int) (l1 l2 : List Event)
    (h : List.Perm l1 l2) :
    ((∃ e, filter_events sinceTs fromTs toTs l1 = .error e) ↔
      (∃ e, filter_events sinceTs fromTs toTs l2 = .error e)) ∧
    ∀ r1 r2, filter_events sinceTs fromTs toTs l1 = .ok r1 →
      filter_events sinceTs fromTs toTs l2 = .ok r2 → List.Perm r1 r2 := by
  have hany := any_eq_of_perm (event_bad sinceTs fromTs toTs) h
  rw [filter_events_eq, filter_events_eq, hany]
  by_cases hb : l2.any (event_bad sinceTs fromTs toTs)
  · simp [hb]
  · rw [if_neg hb, if_neg hb]
    refine ⟨by simp, ?_⟩
    rintro r1 r2 h1 h2
    injection h1 with h1
    injection h2 with h2
    subst h1
    subst h2
    exact h.flatMap_right _

/-- Witness for claim C8 on the five-event fixture of the spec and its
reversal: the two output lists are permutations of each other. -/
theorem filter_events_perm_witness :
    List.Perm
      [({ timestamp := 11, url := "a" } : SnapRef), { timestamp := 21, url := "b" }]
      [({ timestamp := 21, url := "b" } : SnapRef), { timestamp := 11, url := "a" }] :=
  (filter_events_perm 1000000 0 100 fixtureEvents fixtureEventsRev (by decide)).2
    _ _ rfl rfl

/-- Claim C9: the event loop raises KeyError("snapshot") exactly when some
window-matching event has a subevent lacking a snapshot object, and it
succeeds whenever every subevent of every matching event carries one — a
subevent whose snapshot object merely lacks a url is skipped without
error. -/
theorem filter_events_keyError_iff (sinceTs fromTs toTs : Int) (l : List Event) :
    (filter_events sinceTs fromTs toTs l = .error (.keyError "snapshot") ↔
      ∃ e ∈ l, event_matches sinceTs fromTs toTs e = true ∧
        ∃ u ∈ e.subevents, u.snapshot = none) ∧
    ((∀ e ∈ l, event_matches sinceTs fromTs toTs e = true →
        ∀ u ∈ e.subevents, u.snapshot ≠ none) →
      filter_events sinceTs fromTs toTs l
        = .ok (l.flatMap (event_refs sinceTs fromTs toTs))) := by
  rw [filter_events_eq]
  by_cases hb : l.any (event_bad sinceTs fromTs toTs)
  · obtain ⟨e, he, hm, u, hu, hsnap⟩ := (any_event_bad_iff sinceTs fromTs toTs l).mp hb
    constructor
    · simp only [hb, if_true]
      exact ⟨fun _ => ⟨e, he, hm, u, hu, hsnap⟩, fun _ => trivial⟩
    · intro hgood
      exact absurd hsnap (hgood e he hm u hu)
  · constructor
    · simp only [hb, if_false]
      constructor
      · intro hcontra
        exact absurd hcontra (by simp)
      · rintro ⟨e, he, hm, u, hu, hsnap⟩
        exact absurd ((any_event_bad_iff sinceTs fromTs toTs l).mpr
          ⟨e, he, hm, u, hu, hsnap⟩) hb
    · intro _
      simp [hb]

/-- Witness for claim C9: a matching event with a snapshot-less subevent
makes the loop fail with KeyError("snapshot"). -/
theorem filter_events_keyError_witness :
    filter_events 1000000 0 100 [⟨10, [⟨11, none⟩]⟩] = .error (.keyError "snapshot") :=
  (filter_events_keyError_iff 1000000 0 100 [⟨10, [⟨11, none⟩]⟩]).1.mpr (by decide)

/-- Claim C2 counterexample: at wall-clock time 100 with a token whose
expiry is exactly 100 ("at" now), reading access_token performs zero
network calls and returns the cached token, although the claim requires
a renewal whenever the expiry is at or before now, and the token handed
back expires at now. The check on line 95 is strict. -/
theorem access_token_boundary_no_renew :
    access_token 100 (.ok respRotB) stCached = (.ok (some "T"), stCached, 0) ∧
    stCached.expiration = 100 := ⟨rfl, rfl⟩

/-- Claim C2 (amended): reading access_token performs a renewal exchange
(one network call) exactly when the held expiry is strictly before now
(the freshly constructed state has expiration 0, so an absent token
forces renewal at any positive time); with expiration at or after now it
performs zero network calls and returns the cached token unchanged; and
whenever the read succeeds and the renewal payload carries a
non-negative expire_in, the state it leaves behind has expiration at or
after now and the returned token is the stored one. -/
theorem access_token_contract (now : Int) (resp : Except Unit TokenResponseRaw)
    (s : SysState)
    (hei : ∀ r ei, resp = .ok r → r.expire_inF = some ei → 0 ≤ ei) :
    (¬ s.expiration < now → access_token now resp s = (.ok s._access_token, s, 0)) ∧
    (s.expiration < now → (access_token now resp s).2.2 = 1) ∧
    (∀ tok s1, (access_token now resp s).1 = .ok tok →
      (access_token now resp s).2.1 = s1 →
      now ≤ s1.expiration ∧ tok = s1._access_token) := by
  by_cases hexp : s.expiration < now
  · refine ⟨fun hc => absurd hexp hc, fun _ => ?_, ?_⟩
    · unfold access_token
      rw [if_pos hexp]
      have h1 := renew_token_one_call now resp s
      rcases hrt : renew_token now resp s with ⟨st, s2, n⟩
      rw [hrt] at h1
      rcases st with e | u <;> simpa using h1
    · intro tok s1 h1 h2
      unfold access_token at h1 h2
      rw [if_pos hexp] at h1 h2
      rcases hrt : renew_token now resp s with ⟨st, s2, n⟩
      rw [hrt] at h1 h2
      rcases st with e | u
      · simp at h1
      · simp only at h1 h2
        obtain ⟨r, rt, tka, ei, hresp, hr, ha, he, hat, hxp⟩ :=
          renew_token_ok now resp s (by rw [hrt])
        rw [hrt] at hat hxp
        simp only at hat hxp
        have hei2 : 0 ≤ ei := hei r ei hresp he
        injection h1 with h1
        subst h2
        exact ⟨by omega, h1.symm⟩
  · refine ⟨fun _ => by simp [access_token, hexp], fun hc => absurd hc hexp, ?_⟩
    intro tok s1 h1 h2
    simp only [access_token, if_neg hexp] at h1 h2
    injection h1 with h1
    subst h2
    exact ⟨by omega, h1.symm⟩

/-- Witness for the amended claim C2: a non-expired token at time 50 is
returned from cache with zero network calls. -/
theorem access_token_contract_witness :
    access_token 50 (.ok respRotB) stCached = (.ok (some "T"), stCached, 0) :=
  (access_token_contract 50 (.ok respRotB) stCached
      (by intro r ei h1 h2; cases h1; cases h2; decide)).1 (by decide)

/-- Claim C3: if the renewal response carries a refresh token different
from the held one, then after renew_token the in-memory refresh token and
the persisted credential file both hold the new value and exactly one
file write happened; if it carries the same token, the file contents and
the write counter are untouched. -/
theorem renew_token_rotation (now : Int) (r : TokenResponseRaw) (s : SysState)
    (rt : String) (hrt : r.refresh_tokenF = some rt) :
    (s.refresh_token ≠ some rt →
      (renew_token now (.ok r) s).2.1.refresh_token = some rt ∧
      lookupKey "REFRESH_TOKEN" (renew_token now (.ok r) s).2.1.credFile = some rt ∧
      (renew_token now (.ok r) s).2.1.fileWrites = s.fileWrites + 1) ∧
    (s.refresh_token = some rt →
      (renew_token now (.ok r) s).2.1.credFile = s.credFile ∧
      (renew_token now (.ok r) s).2.1.fileWrites = s.fileWrites) := by
  constructor
  · intro hne
    rcases ha : r.access_tokenF with _ | tok <;>
      rcases he : r.expire_inF with _ | ei <;>
      simp [renew_token, hrt, ha, he, hne, lookupKey_updateKey_self]
  · intro heq
    have hne : ¬ s.refresh_token ≠ some rt := by simp [heq]
    rcases ha : r.access_tokenF with _ | tok <;>
      rcases he : r.expire_inF with _ | ei <;>
      simp [renew_token, hrt, ha, he, hne]

/-- Witness for claim C3: rotating from "R" to "B" updates the in-memory
token and the file and bumps the write counter to one. -/
theorem renew_token_rotation_witness :
    (renew_token 0 (.ok respRotB) stCached).2.1.refresh_token = some "B" ∧
    lookupKey "REFRESH_TOKEN" (renew_token 0 (.ok respRotB) stCached).2.1.credFile
      = some "B" ∧
    (renew_token 0 (.ok respRotB) stCached).2.1.fileWrites = 1 :=
  (renew_token_rotation 0 respRotB stCached "B" rfl).1 (by decide)

/-- Claim C7: a renewal exchange whose response is a non-success HTTP
response, or whose payload lacks access_token or expire_in, fails (the
code raises HTTPError or KeyError, the AuthError of the spec), and
renew_token issues exactly one request per call, with no internal
retry. -/
theorem renew_token_failure (now : Int) (resp : Except Unit TokenResponseRaw)
    (s : SysState)
    (h : resp = .error () ∨
      ∃ r, resp = .ok r ∧ (r.access_tokenF = none ∨ r.expire_inF = none)) :
    (∃ e, (renew_token now resp s).1 = .error e) ∧
    (renew_token now resp s).2.2 = 1 := by
  refine ⟨?_, renew_token_one_call now resp s⟩
  rcases h with h | ⟨r, hresp, hmiss⟩
  · subst h
    exact ⟨.httpError, rfl⟩
  · subst hresp
    rcases hr : r.refresh_tokenF with _ | rt
    · exact ⟨.keyError "refresh_token", by simp [renew_token, hr]⟩
    · rcases hmiss with ha | he
      · exact ⟨.keyError "access_token", by simp [renew_token, hr, ha]⟩
      · rcases ha : r.access_tokenF with _ | tok
        · exact ⟨.keyError "access_token", by simp [renew_token, hr, ha]⟩
        · exact ⟨.keyError "expire_in", by simp [renew_token, hr, ha, he]⟩

/-- Witness for claim C7 at a non-success HTTP response. -/
theorem renew_token_failure_witness :
    (∃ e, (renew_token 0 (.error ()) stCached).1 = .error e) ∧
    (renew_token 0 (.error ()) stCached).2.2 = 1 :=
  renew_token_failure 0 (.error ()) stCached (.inl rfl)

/-- Claim C10: starting from the freshly loaded process state, when
renew_token persists a rotated refresh token it writes exactly the
credential dictionary as loaded from the file (keys upper-cased) with
only the REFRESH_TOKEN entry replaced by the server value: the written
contents are a function of the file and the response alone, every other
key keeps its file value, and when a REFRESH_TOKEN environment override
is in use its value is never the one written. -/
theorem renew_token_file_frame (env : String → Option String) (fileCred : CredMap)
    (now : Int) (r : TokenResponseRaw) (rt : String)
    (hrt : r.refresh_tokenF = some rt)
    (hrot : (initState env fileCred).refresh_token ≠ some rt) :
    (renew_token now (.ok r) (initState env fileCred)).2.1.credFile
        = updateKey "REFRESH_TOKEN" rt (loadCred fileCred) ∧
    (∀ k, k ≠ "REFRESH_TOKEN" →
      lookupKey k (renew_token now (.ok r) (initState env fileCred)).2.1.credFile
        = lookupKey k (loadCred fileCred)) ∧
    (∀ v, env "REFRESH_TOKEN" = some v →
      lookupKey "REFRESH_TOKEN"
          (renew_token now (.ok r) (initState env fileCred)).2.1.credFile
        ≠ some v) := by
  have hcred : (initState env fileCred).cred = loadCred fileCred := rfl
  have hfile : (renew_token now (.ok r) (initState env fileCred)).2.1.credFile
      = updateKey "REFRESH_TOKEN" rt (loadCred fileCred) := by
    rcases ha : r.access_tokenF with _ | tok <;>
      rcases he : r.expire_inF with _ | ei <;>
      simp [renew_token, hrt, ha, he, hrot, hcred]
  refine ⟨hfile, ?_, ?_⟩
  · intro k hk
    rw [hfile, lookupKey_updateKey_ne _ _ _ _ hk]
  · intro v hv hcontra
    rw [hfile, lookupKey_updateKey_self] at hcontra
    have hheld : (initState env fileCred).refresh_token = some v := by
      simp [initState, getParameter, hv]
    rw [hheld] at hrot
    exact hrot (by rw [(Option.some.injEq _ _).mp hcontra])

/-- Witness for claim C10: with the file refresh token "A", an
environment override "E" and a server rotation to "B", the written file
is the loaded dictionary with REFRESH_TOKEN set to "B"; CLIENT_ID keeps
its file value and the env value "E" is not what was written. -/
theorem renew_token_file_frame_witness :
    (renew_token 0 (.ok respRotB) (initState envRT fileCredA)).2.1.credFile
        = updateKey "REFRESH_TOKEN" "B" (loadCred fileCredA) ∧
    lookupKey "CLIENT_ID"
        (renew_token 0 (.ok respRotB) (initState envRT fileCredA)).2.1.credFile
      = lookupKey "CLIENT_ID" (loadCred fileCredA) ∧
    lookupKey "REFRESH_TOKEN"
        (renew_token 0 (.ok respRotB) (initState envRT fileCredA)).2.1.credFile
      ≠ some "E" :=
  ⟨(renew_token_file_frame envRT fileCredA 0 respRotB "B" rfl (by decide)).1,
    (renew_token_file_frame envRT fileCredA 0 respRotB "B" rfl (by decide)).2.1
      "CLIENT_ID" (by decide),
    (renew_token_file_frame envRT fileCredA 0 respRotB "B" rfl (by decide)).2.2
      "E" rfl⟩

/-- Claim C6: a home lookup by a name matching no home fails with the
NotFoundError of the spec (the IndexError of line 169, or the "No home
found" failure of line 161 when the payload is empty) and zero
subsequent calls are made to the home-status and events endpoints. -/
theorem run_main_no_match (homes : List Home) (n : String)
    (hne : n ≠ "") (h : ∀ hm ∈ homes, hm.name ≠ n) :
    (run_main homes (some n)).2 = 0 ∧
    ((run_main homes (some n)).1 = .error .indexError ∨
      (run_main homes (some n)).1 = .error (.exnMsg "No home found")) := by
  rcases homes with _ | ⟨h0, rest⟩
  · exact ⟨rfl, .inr rfl⟩
  · have hfilter : ((h0 :: rest).filter (fun hm => decide (n = hm.name))) = [] := by
      rw [List.filter_eq_nil_iff]
      intro hm hmem
      simp only [decide_eq_true_eq]
      exact fun hh => h hm hmem hh.symm
    have hrun : run_main (h0 :: rest) (some n) = (.error .indexError, 0) := by
      simp [run_main, homes_data_init, get_homes_id, isFalsyName, hne, hfilter]
    rw [hrun]
    exact ⟨rfl, .inl rfl⟩

/-- Witness for claim C6: looking up the name "Nonexistent" among homes
named "Kergal" fails and performs no follow-up endpoint call. -/
theorem run_main_no_match_witness :
    (run_main [{ id := "h1", name := "Kergal" }] (some "Nonexistent")).2 = 0 :=
  (run_main_no_match [{ id := "h1", name := "Kergal" }] "Nonexistent"
      (by decide) (by decide)).1

end Netatmo
